import Mathlib

/-!
Shallow embedding of the Document Analysis Pipeline of
`src/infrastructure/lambda/s3-processor/index.py` (the "s3-processor" Lambda).

Python strings are modelled as Lean `String` (lists of characters); all string
primitives used by the source (`str.replace`, `str.strip`, `str.lower`,
`str.title`, `str.split`, slicing, the two `re.sub` calls, `int(...)` parsing)
are re-implemented below on `List Char`, restricted to ASCII where the source
only ever feeds ASCII data (file extensions, keyword vocabularies, sentinel
strings).  JSON scalar values coming back from the AI are modelled by `JValue`;
dictionary `.get` access is modelled by `Option` fields on a record.
-/

namespace S3Processor

/-- Python whitespace for `str.strip` / `str.split()` (ASCII portion). -/
def isPyWS (c : Char) : Bool :=
  c == ' ' || c == '\t' || c == '\n' || c == '\x0d' || c == '\x0b' || c == '\x0c'

/-- Does `pat` occur at the head of `hay`? -/
def matchAt : List Char → List Char → Bool
  | _, [] => true
  | [], _ :: _ => false
  | h :: t, p :: ps => h == p && matchAt t ps

/-- Does `pat` occur anywhere in `hay` (substring containment, as Python `in`)? -/
def hasSub : List Char → List Char → Bool
  | [], pat => pat.isEmpty
  | c :: t, pat => matchAt (c :: t) pat || hasSub t pat

/-- Structural worker for `replAll`: the fuel bounds the number of characters
still to be consumed, so the recursion is structural and kernel-evaluable.
With `fuel ≥ s.length` the fuel never runs out, since every step consumes at
least one character when `pat` is non-empty. -/
def replAllF (pat rep : List Char) : Nat → List Char → List Char
  | 0, s => s
  | _ + 1, [] => []
  | fuel + 1, c :: t =>
    if 0 < pat.length ∧ matchAt (c :: t) pat = true then
      rep ++ replAllF pat rep fuel ((c :: t).drop pat.length)
    else
      c :: replAllF pat rep fuel t

/-- Python `str.replace pat rep`: replace all non-overlapping occurrences,
scanning left to right.  `pat` is always non-empty at every call site. -/
def replAll (pat rep : List Char) (s : List Char) : List Char :=
  replAllF pat rep s.length s

/-- Drop leading Python whitespace. -/
def dropWS : List Char → List Char
  | [] => []
  | c :: t => if isPyWS c then dropWS t else c :: t

/-- Python `str.strip()` (both ends). -/
def stripL (s : List Char) : List Char :=
  ((dropWS s.reverse).reverse |> dropWS)

/-- Python `re.sub(r'\d+', '', s)` removes every digit (ASCII). -/
def removeDigits (s : List Char) : List Char :=
  s.filter (fun c => !c.isDigit)

/-- Python `re.sub(r'([a-z])([A-Z])', r'\1 \2', s)`: insert a space at each
lowercase→uppercase boundary (ASCII classes, as the regex uses). -/
def camelSplitL : List Char → List Char
  | [] => []
  | [c] => [c]
  | a :: b :: rest =>
    if a.isLower && b.isUpper then a :: ' ' :: camelSplitL (b :: rest)
    else a :: camelSplitL (b :: rest)

/-- Python `str.title()` restricted to ASCII letters: the first letter of each
run of letters is uppercased, the rest lowercased. -/
def pyTitleL : Bool → List Char → List Char
  | _, [] => []
  | prevAlpha, c :: t =>
    if c.isAlpha then
      (if prevAlpha then c.toLower else c.toUpper) :: pyTitleL true t
    else
      c :: pyTitleL false t

/-- Python `str.split()` (no argument): split on whitespace runs, no empties. -/
def splitWSAux (acc : List Char) : List Char → List (List Char)
  | [] => if acc.isEmpty then [] else [acc.reverse]
  | c :: t =>
    if isPyWS c then
      if acc.isEmpty then splitWSAux [] t else acc.reverse :: splitWSAux [] t
    else
      splitWSAux (c :: acc) t

def splitWS (s : List Char) : List (List Char) := splitWSAux [] s

/-- Python `str.split(sep)` for a single-character separator, keeping empties. -/
def splitChar (sep : Char) : List Char → List (List Char)
  | [] => [[]]
  | a :: t =>
    let r := splitChar sep t
    if a == sep then [] :: r
    else
      match r with
      | [] => [[a]]
      | h :: t2 => (a :: h) :: t2

/-- `suf` is a suffix of `s`. -/
def endsL (s suf : List Char) : Bool := matchAt s.reverse suf.reverse

-- String-level wrappers.

def lowerStr (s : String) : String := ⟨s.data.map Char.toLower⟩

def pyStrip (s : String) : String := ⟨stripL s.data⟩

def pyReplace (s pat rep : String) : String := ⟨replAll pat.data rep.data s.data⟩

/-- Python slicing `s[:n]` (by characters). -/
def strTake (n : Nat) (s : String) : String := ⟨s.data.take n⟩

def strEndsWith (s suf : String) : Bool := endsL s.data suf.data

def strHasSub (s pat : String) : Bool := hasSub s.data pat.data

/-- Value of a non-empty all-digit run. -/
def digitsVal : List Char → Nat
  | [] => 0
  | c :: t => (c.toNat - 48) * 10 ^ t.length + digitsVal t

/-- Python `int(s)` on a string (ASCII digits, optional sign, surrounding
whitespace allowed; digit-group underscores are not modelled — no call site
feeds them).  `none` models the `ValueError` branch. -/
def pyParseInt (s : String) : Option Int :=
  let l := stripL s.data
  let core : List Char → Option Int := fun d =>
    if d.isEmpty then none
    else if d.all Char.isDigit then some (digitsVal d) else none
  match l with
  | '+' :: rest => core rest
  | '-' :: rest => (core rest).map (fun n => -n)
  | _ => core l

/-- JSON scalar values as produced by `json.loads` for the fields the
normalizer inspects.  (Python `bool` is a subclass of `int`; booleans are
subsumed by `jint 0 / jint 1`.  List/object-valued fields are modelled with
typed `Option` fields on `RawData` below.) -/
inductive JValue where
  | jnull : JValue
  | jint : Int → JValue
  | jfloat : ℚ → JValue
  | jstr : String → JValue
deriving DecidableEq, Repr

/-- `safe_int` from `process_real_analysis_data` (index.py lines 364-374):
ints pass through; strings are checked against sentinel spellings then parsed
with `int(...)`; every other type yields the default. -/
def safe_int (value : JValue) (default : Int) : Int :=
  match value with
  | .jint n => n
  | .jstr s =>
    if ["n/a", "na", "unknown", ""].contains (lowerStr s) then default
    else
      match pyParseInt s with
      | some n => n
      | none => default
  | _ => default

/-- `value` is neither a Python `int` nor a `str` (the types `safe_int`
inspects). -/
def notIntOrStr (value : JValue) : Bool :=
  match value with
  | .jint _ => false
  | .jstr _ => false
  | _ => true

/-- A string `safe_int` cannot coerce: not an int, and if a string, either a
sentinel spelling or unparseable. -/
def nonCoercible (value : JValue) : Bool :=
  match value with
  | .jint _ => false
  | .jstr s =>
    ["n/a", "na", "unknown", ""].contains (lowerStr s) || (pyParseInt s).isNone
  | _ => true

/-- The fixed vocabulary of `extract_skills_from_text` (index.py lines 399-405). -/
def common_skills : List String :=
  ["Python", "Java", "JavaScript", "TypeScript", "React", "Angular", "Vue",
   "Node.js", "Express", "Django", "Flask", "Spring", "HTML", "CSS",
   "SQL", "MySQL", "PostgreSQL", "MongoDB", "Redis", "AWS", "Azure", "GCP",
   "Docker", "Kubernetes", "Git", "Jenkins", "CI/CD", "Linux", "Windows",
   "Machine Learning", "AI", "TensorFlow", "PyTorch", "Pandas", "NumPy"]

/-- `extract_skills_from_text` (index.py lines 397-414): case-insensitive
substring match of each vocabulary entry against the text, first 15 kept. -/
def extract_skills_from_text (text : String) : List String :=
  (common_skills.filter (fun skill => strHasSub (lowerStr text) (lowerStr skill))).take 15

/-- The fixed taxonomy of `categorize_skills` (index.py lines 432-439). -/
def categories : List (String × List String) :=
  [("Programming", ["python", "java", "javascript", "typescript", "c++", "c#"]),
   ("Frontend", ["react", "angular", "vue", "html", "css", "bootstrap"]),
   ("Backend", ["node.js", "express", "django", "flask", "spring"]),
   ("Database", ["sql", "mysql", "postgresql", "mongodb", "redis"]),
   ("Cloud", ["aws", "azure", "gcp", "docker", "kubernetes"]),
   ("DevOps", ["git", "jenkins", "ci/cd", "devops", "linux"])]

/-- `categorize_skills` (index.py lines 430-446): per category, count the
skills whose lowercase form is a member (list membership, not substring) of
the lowercased keyword set.  The result dict keeps insertion order, modelled
as an association list. -/
def categorize_skills (skills : List String) : List (String × Nat) :=
  categories.map (fun ckw =>
    (ckw.1, (skills.filter (fun skill =>
      (ckw.2.map lowerStr).contains (lowerStr skill))).length))

/-- The cleaning chain of `extract_name_from_filename` (index.py lines
421-426): strip extensions, strip resume prefixes, separators to spaces,
remove digit runs, split camelCase boundaries, strip and title-case. -/
def cleanedName (filename : String) : String :=
  let c1 := pyReplace (pyReplace (pyReplace (pyReplace filename ".pdf" "") ".docx" "") ".doc" "") ".txt" ""
  let c2 := pyReplace (pyReplace (pyReplace (pyReplace c1 "Resume_" "") "CV_" "") "resume-" "") "cv-" ""
  let c3 := pyReplace (pyReplace c2 "_" " ") "-" " "
  let c4 : String := ⟨removeDigits c3.data⟩
  let c5 : String := ⟨camelSplitL c4.data⟩
  ⟨pyTitleL false (stripL c5.data)⟩

/-- `extract_name_from_filename` (index.py lines 416-428): the cleaned name is
accepted only with at least two whitespace-separated tokens; `"Unknown
Candidate"` is the unknown sentinel. -/
def extract_name_from_filename (filename : String) : String :=
  if filename = "" then "Unknown Candidate"
  else if 2 ≤ (splitWS (cleanedName filename).data).length then cleanedName filename
  else "Unknown Candidate"

/-- The AI-returned candidate structure: one `Option` field per key the
normalizer reads with `data.get(...)`; `none` models an absent key.  Fields
probed for type confusion by the spec's claims carry raw `JValue`s; list- and
string-valued fields that the code only passes through are carried typed. -/
structure RawData where
  candidate_name : Option JValue := none
  experience_years : Option JValue := none
  experience_level : Option JValue := none
  skills : Option (List String) := none
  overall_score : Option JValue := none
  skill_diversity : Option JValue := none
  fit_assessment : Option JValue := none
  strengths : Option (List String) := none
  recommendations : Option (List String) := none
  detailed_summary : Option String := none
  key_achievements : Option (List String) := none
  education : Option (List String) := none
  certifications : Option (List String) := none
deriving DecidableEq, Repr

/-- The canonical Analysis record, as the dict returned by
`process_real_analysis_data` / `get_fallback_analysis` (index.py lines
376-395 and 452-471).  Fields the code may pass through untyped from the AI
keep the `JValue` type. -/
structure Analysis where
  candidate_name : JValue
  experience_years : Int
  experience_level : JValue
  skills : List String
  total_skills : Nat
  overall_score : Int
  skill_diversity : Int
  fit_assessment : JValue
  key_skills : List String
  skill_breakdown : List (String × Nat)
  strengths : List String
  recommendations : List String
  detailed_summary : String
  summary : String
  key_achievements : List String
  education : List String
  certifications : List String
  extraction_confidence : ℚ
deriving DecidableEq, Repr

/-- `process_real_analysis_data` (index.py lines 356-395). -/
def process_real_analysis_data (data : RawData) (fallback_name : String)
    (resume_text : String) : Analysis :=
  let skills0 := data.skills.getD []
  let skills := if skills0.isEmpty then extract_skills_from_text resume_text else skills0
  { candidate_name := data.candidate_name.getD (.jstr fallback_name)
    experience_years := safe_int (data.experience_years.getD .jnull) 1
    experience_level := data.experience_level.getD (.jstr "Junior")
    skills := skills
    total_skills := skills.length
    overall_score := min 100 (max 1 (safe_int (data.overall_score.getD .jnull) 50))
    skill_diversity := min 100 (max 1 (safe_int (data.skill_diversity.getD .jnull) 30))
    fit_assessment := data.fit_assessment.getD (.jstr "Medium")
    key_skills := skills.take 10
    skill_breakdown := categorize_skills skills
    strengths := data.strengths.getD ["Professional Background"]
    recommendations := data.recommendations.getD ["Continue professional development"]
    detailed_summary := data.detailed_summary.getD ("Professional analysis for " ++ fallback_name)
    summary := data.detailed_summary.getD ("Professional analysis for " ++ fallback_name)
    key_achievements := data.key_achievements.getD []
    education := data.education.getD []
    certifications := data.certifications.getD []
    extraction_confidence := (85 : ℚ) / 100 }

/-- `get_fallback_analysis` (index.py lines 448-471). -/
def get_fallback_analysis (candidate_name : String) (resume_text : String) : Analysis :=
  let skills := extract_skills_from_text resume_text
  { candidate_name := .jstr candidate_name
    experience_years := 1
    experience_level := .jstr "Junior"
    skills := if skills.isEmpty then ["General Skills"] else skills
    total_skills := if skills.isEmpty then 1 else skills.length
    overall_score := 45
    skill_diversity := 25
    fit_assessment := .jstr "Medium"
    key_skills := if skills.isEmpty then ["General Skills"] else skills.take 10
    skill_breakdown := if skills.isEmpty then [("General", 1)] else categorize_skills skills
    strengths := ["Professional Background"]
    recommendations := ["Continue professional development"]
    detailed_summary := "Fallback analysis for " ++ candidate_name ++ " - AI analysis unavailable"
    summary := "Fallback analysis for " ++ candidate_name
    key_achievements := []
    education := []
    certifications := []
    extraction_confidence := (3 : ℚ) / 10 }

/-- The short-extraction guard of `process_resume_file` (index.py lines
112-114): below 50 stripped characters the text is replaced by the explicit
placeholder. -/
def shortTextGuard (raw_text filename : String) : String :=
  if (pyStrip raw_text).length < 50 then
    "Unable to extract meaningful text from " ++ filename ++
      ". File may be corrupted or in unsupported format."
  else raw_text

/-- The branching of `analyze_with_bedrock` (index.py lines 339-354) after the
inference call: a parsed JSON object goes through
`process_real_analysis_data`, every failure path (call threw, no JSON span,
malformed JSON) goes through `get_fallback_analysis`.  `aiResp = none` models
all failure paths at once. -/
def pipelineAnalysis (filename raw_text : String) (aiResp : Option RawData) : Analysis :=
  match aiResp with
  | some data => process_real_analysis_data data (extract_name_from_filename filename) raw_text
  | none => get_fallback_analysis (extract_name_from_filename filename) raw_text

/-- The Detailed Projection dict built at index.py lines 161-170 and written
to S3. -/
structure DetailedAnalysis where
  full_summary : String
  all_skills : List String
  detailed_achievements : List String
  full_education : List String
  all_certifications : List String
  complete_strengths : List String
  detailed_recommendations : List String
  skill_breakdown : List (String × Nat)
deriving DecidableEq, Repr

def mkDetailedAnalysis (a : Analysis) : DetailedAnalysis :=
  { full_summary := a.detailed_summary
    all_skills := a.key_skills
    detailed_achievements := a.key_achievements
    full_education := a.education
    all_certifications := a.certifications
    complete_strengths := a.strengths
    detailed_recommendations := a.recommendations
    skill_breakdown := a.skill_breakdown }

/-- The Essential Projection dict (`resume_info`) built at index.py lines
180-205 and written to DynamoDB. -/
structure ResumeInfoRecord where
  id : String
  parsed_resume_id : String
  extraction_confidence : ℚ
  summary : String
  candidate_name : JValue
  experience_years : Int
  experience_level : JValue
  total_skills : Nat
  overall_score : Int
  skill_diversity : Int
  fit_assessment : JValue
  key_skills : List String
  top_strengths : List String
  top_recommendations : List String
  detailed_analysis_s3_key : String
  raw_text_s3_key : String
deriving DecidableEq, Repr

def mkResumeInfo (a : Analysis) (id parsed_resume_id detailed_key raw_key : String) :
    ResumeInfoRecord :=
  { id := id
    parsed_resume_id := parsed_resume_id
    extraction_confidence := a.extraction_confidence
    summary := strTake 1000 a.summary
    candidate_name := a.candidate_name
    experience_years := a.experience_years
    experience_level := a.experience_level
    total_skills := a.total_skills
    overall_score := a.overall_score
    skill_diversity := a.skill_diversity
    fit_assessment := a.fit_assessment
    key_skills := a.key_skills.take 10
    top_strengths := a.strengths.take 5
    top_recommendations := a.recommendations.take 3
    detailed_analysis_s3_key := detailed_key
    raw_text_s3_key := raw_key }

/-- The `attachment` dict (index.py lines 119-126), plus the status mutation
of lines 216-220. -/
structure AttachmentRecord where
  id : String
  filename : String
  contentType : String
  size : Nat
  processingStatus : String
deriving DecidableEq, Repr

/-- The `parsed_resume` dict (index.py lines 141-149). -/
structure ParsedResumeRecord where
  id : String
  attachment_id : String
  raw_text_s3_key : String
  text_length : Nat
  text_preview : String
  parsing_status : String
deriving DecidableEq, Repr

/-- Bodies written to the blob store (S3): raw text or a Detailed Projection
serialized as JSON. -/
inductive BlobBody where
  | text : String → BlobBody
  | json : DetailedAnalysis → BlobBody
deriving DecidableEq, Repr

/-- State of the two storage tiers after a pipeline run: the three DynamoDB
tables touched by the processor and the S3 bucket. -/
structure PipeState where
  attachments : List AttachmentRecord := []
  blob : List (String × BlobBody) := []
  parsed : List ParsedResumeRecord := []
  infos : List ResumeInfoRecord := []
deriving DecidableEq, Repr

/-- `get_object` semantics: last write to a key wins. -/
def blobGet (blob : List (String × BlobBody)) (key : String) : Option BlobBody :=
  (blob.reverse.find? (fun e => e.1 == key)).map (fun e => e.2)

/-- Fault injection for the storage writes of `process_resume_file`, in
program order.  `false` means the corresponding AWS call raises. -/
structure Faults where
  okAttachPut : Bool
  okRawPut : Bool
  okParsedPut : Bool
  okDetailedPut : Bool
  okInfoPut : Bool
  okStatusUpdate : Bool
deriving DecidableEq, Repr

def Faults.allOk (f : Faults) : Bool :=
  f.okAttachPut && f.okRawPut && f.okParsedPut && f.okDetailedPut &&
    f.okInfoPut && f.okStatusUpdate

/-- Return value of `process_resume_file`: the dicts of index.py lines 98,
223 and 227.  Any raising write is caught by the `except` of lines 225-227
and surfaces as the `error` dict — never as an exception. -/
inductive PipelineResult where
  | skipped : PipelineResult
  | success : String → PipelineResult
  | error : PipelineResult
deriving DecidableEq, Repr

/-- Does the filename pass the extension filter of index.py line 97? -/
def hasResumeExt (filename : String) : Bool :=
  strEndsWith (lowerStr filename) ".pdf" || strEndsWith (lowerStr filename) ".docx" ||
    strEndsWith (lowerStr filename) ".doc" || strEndsWith (lowerStr filename) ".txt"

/-- Python `key.split('/')[-1]`. -/
def lastPathComponent (key : String) : String :=
  ⟨(splitChar '/' key.data).getLastD []⟩

/-- `process_resume_file` (index.py lines 91-227), with the download,
extraction and Bedrock call abstracted into the `raw_text0` / `aiResp`
parameters and the generated UUIDs injected.  Each write persists before the
next runs; a failed write aborts the remaining writes and the whole body's
exception handler returns the error dict, leaving earlier writes in place. -/
def process_resume_file (f : Faults) (key raw_text0 : String) (aiResp : Option RawData)
    (fsize : Nat) (content_type attachment_id parsed_resume_id det_uuid info_id : String) :
    PipelineResult × PipeState :=
  let filename := lastPathComponent key
  if !hasResumeExt filename then (.skipped, {})
  else
    let raw_text := shortTextGuard raw_text0 filename
    if !f.okAttachPut then (.error, {}) else
    let st1 : PipeState :=
      { attachments := [{ id := attachment_id, filename := filename,
                          contentType := content_type, size := fsize,
                          processingStatus := "PROCESSING" }] }
    let raw_key := "parsed-resumes/" ++ parsed_resume_id ++ ".txt"
    if !f.okRawPut then (.error, st1) else
    let st2 : PipeState := { st1 with blob := st1.blob ++ [(raw_key, .text raw_text)] }
    let parsedRec : ParsedResumeRecord :=
      { id := parsed_resume_id
        attachment_id := attachment_id
        raw_text_s3_key := raw_key
        text_length := raw_text.data.length
        text_preview := if 500 < raw_text.data.length then strTake 500 raw_text ++ "..." else raw_text
        parsing_status := "completed" }
    if !f.okParsedPut then (.error, st2) else
    let st3 : PipeState := { st2 with parsed := [parsedRec] }
    let analysis := pipelineAnalysis filename raw_text aiResp
    let det_key := "analysis/" ++ det_uuid ++ ".json"
    if !f.okDetailedPut then (.error, st3) else
    let st4 : PipeState := { st3 with blob := st3.blob ++ [(det_key, .json (mkDetailedAnalysis analysis))] }
    let info := mkResumeInfo analysis info_id parsed_resume_id det_key raw_key
    if !f.okInfoPut then (.error, st4) else
    let st5 : PipeState := { st4 with infos := [info] }
    -- the email trigger (lines 209-213) swallows its own failures and writes
    -- none of the modelled state
    if !f.okStatusUpdate then (.error, st5) else
    let st6 : PipeState :=
      { st5 with attachments := st5.attachments.map (fun a =>
          if a.id = attachment_id then { a with processingStatus := "COMPLETED" } else a) }
    (.success attachment_id, st6)

/-- One record of the S3 event consumed by `handler`, with the same
abstracted inputs as `process_resume_file`. -/
structure S3EventRecord where
  eventSource : String
  key : String
  raw_text0 : String
  aiResp : Option RawData
  fsize : Nat
  content_type : String
  attachment_id : String
  parsed_resume_id : String
  det_uuid : String
  info_id : String
deriving DecidableEq, Repr

/-- `handler` (index.py lines 71-89): loops over the S3 records, calling
`process_resume_file` on each and only logging its result dict.  Since
`process_resume_file` catches every exception, the `except` of lines 87-89 is
unreachable and the handler always returns the 200 response. -/
def handler (f : Faults) (records : List S3EventRecord) : Nat × String :=
  let _ := records.map (fun r =>
    if r.eventSource == "aws:s3" then
      some (process_resume_file f r.key r.raw_text0 r.aiResp r.fsize r.content_type
        r.attachment_id r.parsed_resume_id r.det_uuid r.info_id)
    else none)
  (200, "Processing completed")

-- ### Helper lemmas

lemma det_key_head (duid : String) :
    ("analysis/" ++ duid ++ ".json" : String).data.head? = some 'a' := by
  obtain ⟨l⟩ := duid; rfl

lemma raw_key_head (pid : String) :
    ("parsed-resumes/" ++ pid ++ ".txt" : String).data.head? = some 'p' := by
  obtain ⟨l⟩ := pid; rfl

/-- The two blob-store namespaces never collide, whatever the generated ids. -/
lemma keys_ne (duid pid : String) :
    (("analysis/" ++ duid ++ ".json" : String) == ("parsed-resumes/" ++ pid ++ ".txt")) = false := by
  rw [beq_eq_false_iff_ne]
  intro h
  have h1 := det_key_head duid
  rw [h, raw_key_head] at h1
  simp at h1

/-- `safe_int` returns its default exactly on the non-coercible values. -/
lemma safe_int_nonCoercible (v : JValue) (d : Int) (h : nonCoercible v = true) :
    safe_int v d = d := by
  cases v with
  | jnull => rfl
  | jint n => simp [nonCoercible] at h
  | jfloat q => rfl
  | jstr s =>
    simp only [nonCoercible, Bool.or_eq_true] at h
    rcases h with h | h
    · simp only [safe_int, h]
      rfl
    · simp only [safe_int]
      split
      · rfl
      · simp only [Option.isNone_iff_eq_none] at h
        simp [h]

/-- A faulted run of `process_resume_file` never produces the success dict. -/
lemma run_not_success (f : Faults) (key raw0 : String) (aiResp : Option RawData)
    (fsize : Nat) (ct aid pid duid iid : String) (h : f.allOk = false) :
    (process_resume_file f key raw0 aiResp fsize ct aid pid duid iid).1 = .skipped ∨
    (process_resume_file f key raw0 aiResp fsize ct aid pid duid iid).1 = .error := by
  obtain ⟨b1, b2, b3, b4, b5, b6⟩ := f
  simp [Faults.allOk] at h
  by_cases hext : hasResumeExt (lastPathComponent key)
  · unfold process_resume_file
    simp only [hext]
    repeat' split
    all_goals simp_all
  · unfold process_resume_file
    simp [hext]

/-- No run of `process_resume_file`, faulted or not, ever records a FAILED
processing status: the only statuses ever written are PROCESSING and
COMPLETED. -/
lemma no_failed_status (f : Faults) (key raw0 : String) (aiResp : Option RawData)
    (fsize : Nat) (ct aid pid duid iid : String) :
    ∀ a ∈ (process_resume_file f key raw0 aiResp fsize ct aid pid duid iid).2.attachments,
      a.processingStatus ≠ "FAILED" := by
  obtain ⟨b1, b2, b3, b4, b5, b6⟩ := f
  by_cases hext : hasResumeExt (lastPathComponent key)
  · unfold process_resume_file
    simp only [hext]
    repeat' split
    all_goals intro a ha
    all_goals simp_all
  · unfold process_resume_file
    simp [hext]

-- ### Theorems for the claims

/-- C7: whenever the stripped extraction output has fewer than 50 characters,
`process_resume_file` hands downstream analysis the explicit "extraction too
short" placeholder naming the file, not the marginal text. -/
theorem C7_short_extraction_placeholder (raw filename : String)
    (h : (pyStrip raw).length < 50) :
    shortTextGuard raw filename =
      "Unable to extract meaningful text from " ++ filename ++
        ". File may be corrupted or in unsupported format." := by
  simp [shortTextGuard, h]

theorem C7_short_extraction_placeholder_witness :
    (pyStrip "hi").length < 50 ∧
    shortTextGuard "hi" "a.txt" =
      "Unable to extract meaningful text from " ++ "a.txt" ++
        ". File may be corrupted or in unsupported format." :=
  ⟨by decide, C7_short_extraction_placeholder "hi" "a.txt" (by decide)⟩

/-- C8: the filename-based name resolver maps "John_Smith_Resume_2023.pdf" to
"John Smith", and maps "resume.pdf" to the unknown sentinel because its
cleaned form has a single whitespace-separated token. -/
theorem C8_name_resolution :
    extract_name_from_filename "John_Smith_Resume_2023.pdf" = "John Smith" ∧
    extract_name_from_filename "resume.pdf" = "Unknown Candidate" ∧
    (splitWS (cleanedName "resume.pdf").data).length = 1 := by
  decide

/-- C4: the normalized overall_score always lands in [1,100] and the
normalized skill_diversity always lands in [1,100]; non-coercible
overall_score / skill_diversity inputs (absent keys included) map to the
defaults 50 / 30; the seven sample inputs -10, 0, 1, 100, 101, 1000 and
"N/A" normalize to 1, 1, 1, 100, 100, 100 and 50. -/
theorem C4_score_clamping :
    (∀ (data : RawData) (fb txt : String),
      1 ≤ (process_real_analysis_data data fb txt).overall_score ∧
      (process_real_analysis_data data fb txt).overall_score ≤ 100 ∧
      1 ≤ (process_real_analysis_data data fb txt).skill_diversity ∧
      (process_real_analysis_data data fb txt).skill_diversity ≤ 100) ∧
    (∀ (data : RawData) (fb txt : String) (v : JValue),
      data.overall_score = some v → nonCoercible v = true →
      (process_real_analysis_data data fb txt).overall_score = 50) ∧
    (∀ (data : RawData) (fb txt : String) (v : JValue),
      data.skill_diversity = some v → nonCoercible v = true →
      (process_real_analysis_data data fb txt).skill_diversity = 30) ∧
    (∀ (data : RawData) (fb txt : String),
      (process_real_analysis_data { data with overall_score := some (.jint (-10)) } fb txt).overall_score = 1 ∧
      (process_real_analysis_data { data with overall_score := some (.jint 0) } fb txt).overall_score = 1 ∧
      (process_real_analysis_data { data with overall_score := some (.jint 1) } fb txt).overall_score = 1 ∧
      (process_real_analysis_data { data with overall_score := some (.jint 100) } fb txt).overall_score = 100 ∧
      (process_real_analysis_data { data with overall_score := some (.jint 101) } fb txt).overall_score = 100 ∧
      (process_real_analysis_data { data with overall_score := some (.jint 1000) } fb txt).overall_score = 100 ∧
      (process_real_analysis_data { data with overall_score := some (.jstr "N/A") } fb txt).overall_score = 50) := by
  have hov : ∀ (data : RawData) (fb txt : String) (v : JValue),
      data.overall_score = some v →
      (process_real_analysis_data data fb txt).overall_score =
        min 100 (max 1 (safe_int v 50)) := by
    intro data fb txt v hv
    simp [process_real_analysis_data, hv]
  have hsd : ∀ (data : RawData) (fb txt : String) (v : JValue),
      data.skill_diversity = some v →
      (process_real_analysis_data data fb txt).skill_diversity =
        min 100 (max 1 (safe_int v 30)) := by
    intro data fb txt v hv
    simp [process_real_analysis_data, hv]
  refine ⟨?_, ?_, ?_, ?_⟩
  · intro data fb txt
    simp only [process_real_analysis_data]
    refine ⟨?_, ?_, ?_, ?_⟩ <;> omega
  · intro data fb txt v hv hnc
    rw [hov data fb txt v hv, safe_int_nonCoercible v 50 hnc]
    omega
  · intro data fb txt v hv hnc
    rw [hsd data fb txt v hv, safe_int_nonCoercible v 30 hnc]
    omega
  · intro data fb txt
    refine ⟨?_, ?_, ?_, ?_, ?_, ?_, ?_⟩ <;> rw [hov _ fb txt _ rfl]
    · simp only [safe_int]; omega
    · simp only [safe_int]; omega
    · simp only [safe_int]; omega
    · simp only [safe_int]; omega
    · simp only [safe_int]; omega
    · simp only [safe_int]; omega
    · rw [safe_int_nonCoercible _ 50 (by decide)]
      omega

theorem C4_score_clamping_witness :
    (process_real_analysis_data { overall_score := some (.jstr "N/A") } "F" "").overall_score = 50 ∧
    (process_real_analysis_data { skill_diversity := some (.jstr "N/A") } "F" "").skill_diversity = 30 ∧
    1 ≤ (process_real_analysis_data { overall_score := some (.jint 1000) } "F" "").overall_score :=
  ⟨C4_score_clamping.2.1 { overall_score := some (.jstr "N/A") } "F" "" (.jstr "N/A") rfl (by decide),
   C4_score_clamping.2.2.1 { skill_diversity := some (.jstr "N/A") } "F" "" (.jstr "N/A") rfl (by decide),
   (C4_score_clamping.1 { overall_score := some (.jint 1000) } "F" "").1⟩

/-- C9: `safe_int` returns the caller's default for every value that is
neither a Python int nor a str; in particular float-valued
experience_years / overall_score / skill_diversity normalize to the
documented defaults 1 / 50 / 30, never to a truncated or rounded integer. -/
theorem C9_noninteger_types_default :
    (∀ (v : JValue) (d : Int), notIntOrStr v = true → safe_int v d = d) ∧
    (∀ (data : RawData) (q1 q2 q3 : ℚ) (fb txt : String),
      (process_real_analysis_data
        { data with experience_years := some (.jfloat q1),
                    overall_score := some (.jfloat q2),
                    skill_diversity := some (.jfloat q3) } fb txt).experience_years = 1 ∧
      (process_real_analysis_data
        { data with experience_years := some (.jfloat q1),
                    overall_score := some (.jfloat q2),
                    skill_diversity := some (.jfloat q3) } fb txt).overall_score = 50 ∧
      (process_real_analysis_data
        { data with experience_years := some (.jfloat q1),
                    overall_score := some (.jfloat q2),
                    skill_diversity := some (.jfloat q3) } fb txt).skill_diversity = 30) := by
  constructor
  · intro v d h
    cases v <;> simp_all [notIntOrStr, safe_int]
  · intro data q1 q2 q3 fb txt
    refine ⟨?_, ?_, ?_⟩ <;> simp [process_real_analysis_data, safe_int]

theorem C9_noninteger_types_default_witness :
    safe_int (.jfloat ((15 : ℚ) / 2)) 1 = 1 ∧
    (process_real_analysis_data
      { experience_years := some (.jfloat ((15 : ℚ) / 2)),
        overall_score := some (.jfloat ((153 : ℚ) / 2)),
        skill_diversity := some (.jfloat ((61 : ℚ) / 2)) } "F" "").experience_years = 1 :=
  ⟨C9_noninteger_types_default.1 (.jfloat ((15 : ℚ) / 2)) 1 (by decide),
   (C9_noninteger_types_default.2 {} ((15 : ℚ) / 2) ((153 : ℚ) / 2) ((61 : ℚ) / 2) "F" "").1⟩

/-- C5 counterexample: the claim "the normalized experience_years is an
integer that is at least 1: any coercion failure or negative value yields 1,
never 0 or a negative number" is false on the code: integer AI values pass
through `safe_int` unfloored, so 0 and -3 survive normalization. -/
theorem C5_counterexample :
    (process_real_analysis_data { experience_years := some (.jint 0) } "F" "x").experience_years = 0 ∧
    (process_real_analysis_data { experience_years := some (.jint (-3)) } "F" "x").experience_years = -3 ∧
    ¬ 1 ≤ (process_real_analysis_data { experience_years := some (.jint 0) } "F" "x").experience_years := by
  refine ⟨rfl, rfl, by decide⟩

/-- C5 amended: experience_years is `safe_int` with default 1 and no floor —
an absent key or a non-coercible value yields 1, but int values (and
parseable strings) pass through unchanged, including 0 and negatives. -/
theorem C5_experience_years_coercion (data : RawData) (fb txt : String) :
    (data.experience_years = none →
      (process_real_analysis_data data fb txt).experience_years = 1) ∧
    (∀ v, data.experience_years = some v → nonCoercible v = true →
      (process_real_analysis_data data fb txt).experience_years = 1) ∧
    (∀ n : Int, data.experience_years = some (.jint n) →
      (process_real_analysis_data data fb txt).experience_years = n) := by
  have hev : ∀ v, data.experience_years = some v →
      (process_real_analysis_data data fb txt).experience_years = safe_int v 1 := by
    intro v hv
    simp [process_real_analysis_data, hv]
  refine ⟨?_, ?_, ?_⟩
  · intro hnone
    simp [process_real_analysis_data, hnone, safe_int]
  · intro v hv hnc
    rw [hev v hv, safe_int_nonCoercible v 1 hnc]
  · intro n hn
    rw [hev _ hn]
    rfl

theorem C5_experience_years_coercion_witness :
    (process_real_analysis_data { experience_years := some (.jstr "unknown") } "F" "x").experience_years = 1 ∧
    (process_real_analysis_data { experience_years := some (.jint 7) } "F" "x").experience_years = 7 :=
  ⟨(C5_experience_years_coercion { experience_years := some (.jstr "unknown") } "F" "x").2.1
      (.jstr "unknown") rfl (by decide),
   (C5_experience_years_coercion { experience_years := some (.jint 7) } "F" "x").2.2 7 rfl⟩

/-- C6 counterexample: the claim "an empty-string candidate_name in the AI
output never becomes the normalized candidate_name" is false: `dict.get`
falls back only on an absent key, so a present empty string is kept verbatim
and the filename-derived name "John Smith" is ignored. -/
theorem C6_counterexample :
    (process_real_analysis_data { candidate_name := some (.jstr "") } "John Smith" "x").candidate_name =
      .jstr "" ∧
    (process_real_analysis_data { candidate_name := some (.jstr "") } "John Smith" "x").candidate_name ≠
      .jstr "John Smith" := by
  refine ⟨rfl, by decide⟩

/-- C6 amended: candidate_name is taken from the candidate structure whenever
the key is present — regardless of emptiness or type — and only an absent key
falls back to the filename-derived name (which is itself "Unknown Candidate"
when no name is derivable). -/
theorem C6_candidate_name_passthrough (data : RawData) (fb txt : String) :
    (∀ v, data.candidate_name = some v →
      (process_real_analysis_data data fb txt).candidate_name = v) ∧
    (data.candidate_name = none →
      (process_real_analysis_data data fb txt).candidate_name = .jstr fb) ∧
    (∀ filename raw, data.candidate_name = none →
      (pipelineAnalysis filename raw (some data)).candidate_name =
        .jstr (extract_name_from_filename filename)) := by
  refine ⟨?_, ?_, ?_⟩
  · intro v hv
    simp [process_real_analysis_data, hv]
  · intro hnone
    simp [process_real_analysis_data, hnone]
  · intro filename raw hnone
    simp [pipelineAnalysis, process_real_analysis_data, hnone]

theorem C6_candidate_name_passthrough_witness :
    (process_real_analysis_data { candidate_name := some (.jint 42) } "F" "x").candidate_name = .jint 42 ∧
    (pipelineAnalysis "John_Smith_Resume_2023.pdf" "x" (some {})).candidate_name =
      .jstr (extract_name_from_filename "John_Smith_Resume_2023.pdf") :=
  ⟨(C6_candidate_name_passthrough { candidate_name := some (.jint 42) } "F" "x").1 (.jint 42) rfl,
   (C6_candidate_name_passthrough {} "F" "x").2.2 "John_Smith_Resume_2023.pdf" "x" rfl⟩

/-- C2 counterexample: on the fallback path with no extractable skill the
skill category mapping is the literal singleton General → 1, so the fixed
categories are not all present with default 0. -/
theorem C2_counterexample :
    (get_fallback_analysis "Unknown Candidate" "").skill_breakdown = [("General", 1)] ∧
    "Programming" ∉ ((get_fallback_analysis "Unknown Candidate" "").skill_breakdown.map Prod.fst) := by
  refine ⟨rfl, by decide⟩

/-- C2 amended: `categorize_skills` always yields every fixed category, with
0 for unmatched ones; the AI-validated path always recomputes skill_breakdown
from the final skills list (the candidate structure's own skill_breakdown is
never read); the fallback path does so only when keyword extraction finds at
least one skill — with none found it stores the literal General → 1 instead. -/
theorem C2_skill_breakdown_recomputed :
    (∀ skills : List String,
      (categorize_skills skills).map Prod.fst =
        ["Programming", "Frontend", "Backend", "Database", "Cloud", "DevOps"]) ∧
    (categorize_skills [] =
      [("Programming", 0), ("Frontend", 0), ("Backend", 0),
       ("Database", 0), ("Cloud", 0), ("DevOps", 0)]) ∧
    (∀ (data : RawData) (fb txt : String),
      (process_real_analysis_data data fb txt).skill_breakdown =
        categorize_skills (process_real_analysis_data data fb txt).skills) ∧
    (∀ (name txt : String), extract_skills_from_text txt ≠ [] →
      (get_fallback_analysis name txt).skill_breakdown =
        categorize_skills (get_fallback_analysis name txt).skills) := by
  refine ⟨?_, by decide, ?_, ?_⟩
  · intro skills
    simp [categorize_skills, categories]
  · intro data fb txt
    rfl
  · intro name txt h
    have he : (extract_skills_from_text txt).isEmpty = false := by
      simpa [List.isEmpty_iff] using h
    simp [get_fallback_analysis, he]

theorem C2_skill_breakdown_recomputed_witness :
    (get_fallback_analysis "F" "python and aws").skill_breakdown =
      categorize_skills (get_fallback_analysis "F" "python and aws").skills :=
  C2_skill_breakdown_recomputed.2.2.2 "F" "python and aws" (by decide)

/-- C3 counterexample: with eleven AI-supplied skills, the Detailed
Projection's skills field is the already-truncated top-10 `key_skills` list,
not the untruncated eleven-element skills list. -/
theorem C3_counterexample :
    (mkDetailedAnalysis (process_real_analysis_data
        { skills := some ["A", "B", "C", "D", "E", "F", "G", "H", "I", "J", "K"] } "N" "")).all_skills ≠
      (process_real_analysis_data
        { skills := some ["A", "B", "C", "D", "E", "F", "G", "H", "I", "J", "K"] } "N" "").skills ∧
    (process_real_analysis_data
        { skills := some ["A", "B", "C", "D", "E", "F", "G", "H", "I", "J", "K"] } "N" "").skills.length = 11 ∧
    (mkDetailedAnalysis (process_real_analysis_data
        { skills := some ["A", "B", "C", "D", "E", "F", "G", "H", "I", "J", "K"] } "N" "")).all_skills.length = 10 := by
  refine ⟨by decide, rfl, rfl⟩

/-- C3 amended: the Essential Projection truncates summary/skills/strengths/
recommendations to 1000 characters and top 10/5/3 entries; the Detailed
Projection carries the untruncated detailed_summary, strengths and
recommendations, but its skills field is the Analysis's `key_skills` list,
which for normalized analyses is already the top-10 slice of the skills list —
skills beyond the top 10 reach neither projection. -/
theorem C3_projection_truncation :
    (∀ (a : Analysis) (id pid dk rk : String),
      (mkResumeInfo a id pid dk rk).summary = strTake 1000 a.summary ∧
      (mkResumeInfo a id pid dk rk).key_skills = a.key_skills.take 10 ∧
      (mkResumeInfo a id pid dk rk).top_strengths = a.strengths.take 5 ∧
      (mkResumeInfo a id pid dk rk).top_recommendations = a.recommendations.take 3 ∧
      (mkDetailedAnalysis a).full_summary = a.detailed_summary ∧
      (mkDetailedAnalysis a).complete_strengths = a.strengths ∧
      (mkDetailedAnalysis a).detailed_recommendations = a.recommendations ∧
      (mkDetailedAnalysis a).all_skills = a.key_skills) ∧
    (∀ (data : RawData) (fb txt : String),
      (mkDetailedAnalysis (process_real_analysis_data data fb txt)).all_skills =
        (process_real_analysis_data data fb txt).skills.take 10) := by
  refine ⟨?_, ?_⟩
  · intro a id pid dk rk
    exact ⟨rfl, rfl, rfl, rfl, rfl, rfl, rfl, rfl⟩
  · intro data fb txt
    rfl

/-- C1 counterexample: with the Essential-Projection write failing (all other
writes succeeding), the invocation returns the error dict rather than
raising, the Document's status is left at PROCESSING — never FAILED — a
partial Detailed Projection blob remains in the blob store with no Essential
record, and the Lambda handler still reports HTTP 200 to its caller. -/
theorem C1_counterexample :
    (process_resume_file ⟨true, true, true, true, false, true⟩
        "uploads/r.txt" "" none 7 "text/plain" "att-1" "par-1" "det-1" "inf-1").1 =
      PipelineResult.error ∧
    (process_resume_file ⟨true, true, true, true, false, true⟩
        "uploads/r.txt" "" none 7 "text/plain" "att-1" "par-1" "det-1" "inf-1").2.attachments =
      [{ id := "att-1", filename := "r.txt", contentType := "text/plain", size := 7,
         processingStatus := "PROCESSING" }] ∧
    (process_resume_file ⟨true, true, true, true, false, true⟩
        "uploads/r.txt" "" none 7 "text/plain" "att-1" "par-1" "det-1" "inf-1").2.infos = [] ∧
    (blobGet (process_resume_file ⟨true, true, true, true, false, true⟩
        "uploads/r.txt" "" none 7 "text/plain" "att-1" "par-1" "det-1" "inf-1").2.blob
      "analysis/det-1.json").isSome = true ∧
    handler ⟨true, true, true, true, false, true⟩
        [⟨"aws:s3", "uploads/r.txt", "", none, 7, "text/plain", "att-1", "par-1", "det-1", "inf-1"⟩] =
      (200, "Processing completed") := by
  refine ⟨by decide, by decide, by decide, by decide, rfl⟩

/-- C1 amended: a storage write failure makes `process_resume_file` return
the error result dict instead of the success dict, but the exception is
caught inside the function: the Document's status is never set to FAILED (only
PROCESSING and COMPLETED are ever written), writes completed before the
failure persist — in particular a Detailed Projection blob with no Essential
record when only the Essential write fails — and the handler swallows the
error result and reports 200 to its caller instead of propagating it. -/
theorem C1_storage_failure_behavior :
    (∀ (f : Faults) (key raw0 : String) (aiResp : Option RawData) (fsize : Nat)
        (ct aid pid duid iid : String), f.allOk = false →
      (process_resume_file f key raw0 aiResp fsize ct aid pid duid iid).1 = .skipped ∨
      (process_resume_file f key raw0 aiResp fsize ct aid pid duid iid).1 = .error) ∧
    (∀ (f : Faults) (key raw0 : String) (aiResp : Option RawData) (fsize : Nat)
        (ct aid pid duid iid : String),
      ∀ a ∈ (process_resume_file f key raw0 aiResp fsize ct aid pid duid iid).2.attachments,
        a.processingStatus ≠ "FAILED") ∧
    (∀ (key raw0 : String) (aiResp : Option RawData) (fsize : Nat)
        (ct aid pid duid iid : String),
      hasResumeExt (lastPathComponent key) = true →
      (process_resume_file ⟨true, true, true, true, false, true⟩
          key raw0 aiResp fsize ct aid pid duid iid).1 = .error ∧
      (process_resume_file ⟨true, true, true, true, false, true⟩
          key raw0 aiResp fsize ct aid pid duid iid).2.infos = [] ∧
      blobGet (process_resume_file ⟨true, true, true, true, false, true⟩
          key raw0 aiResp fsize ct aid pid duid iid).2.blob
        ("analysis/" ++ duid ++ ".json") =
        some (.json (mkDetailedAnalysis (pipelineAnalysis (lastPathComponent key)
          (shortTextGuard raw0 (lastPathComponent key)) aiResp)))) ∧
    (∀ (f : Faults) (records : List S3EventRecord),
      handler f records = (200, "Processing completed")) := by
  refine ⟨run_not_success, no_failed_status, ?_, ?_⟩
  · intro key raw0 aiResp fsize ct aid pid duid iid hext
    refine ⟨?_, ?_, ?_⟩ <;> simp [process_resume_file, hext, blobGet]
  · intro f records
    rfl

theorem C1_storage_failure_behavior_witness :
    ((process_resume_file ⟨false, true, true, true, true, true⟩
        "uploads/r.txt" "" none 7 "text/plain" "att-1" "par-1" "det-1" "inf-1").1 = .skipped ∨
     (process_resume_file ⟨false, true, true, true, true, true⟩
        "uploads/r.txt" "" none 7 "text/plain" "att-1" "par-1" "det-1" "inf-1").1 = .error) ∧
    ((process_resume_file ⟨true, true, true, true, false, true⟩
        "uploads/r.txt" "" none 7 "text/plain" "att-1" "par-1" "det-1" "inf-1").1 = .error ∧
     (process_resume_file ⟨true, true, true, true, false, true⟩
        "uploads/r.txt" "" none 7 "text/plain" "att-1" "par-1" "det-1" "inf-1").2.infos = [] ∧
     blobGet (process_resume_file ⟨true, true, true, true, false, true⟩
        "uploads/r.txt" "" none 7 "text/plain" "att-1" "par-1" "det-1" "inf-1").2.blob
       ("analysis/" ++ "det-1" ++ ".json") =
       some (.json (mkDetailedAnalysis (pipelineAnalysis (lastPathComponent "uploads/r.txt")
         (shortTextGuard "" (lastPathComponent "uploads/r.txt")) none)))) :=
  ⟨C1_storage_failure_behavior.1 ⟨false, true, true, true, true, true⟩
      "uploads/r.txt" "" none 7 "text/plain" "att-1" "par-1" "det-1" "inf-1" (by decide),
   C1_storage_failure_behavior.2.2.1 "uploads/r.txt" "" none 7 "text/plain"
      "att-1" "par-1" "det-1" "inf-1" (by decide)⟩

/-- C10: on every fully successful run (any input text, short ones included),
the parsed-resume record's blob reference dereferences to the full raw text,
and the Essential record carries both that raw-text reference and a
detailed-analysis reference dereferencing to the Detailed Projection —
unconditionally, with no text-length test anywhere on these writes. -/
theorem C10_references_unconditional (f : Faults) (key raw0 : String)
    (aiResp : Option RawData) (fsize : Nat) (ct aid pid duid iid : String)
    (hall : f.allOk = true) (hext : hasResumeExt (lastPathComponent key) = true) :
    (process_resume_file f key raw0 aiResp fsize ct aid pid duid iid).2.parsed.length = 1 ∧
    (∀ p ∈ (process_resume_file f key raw0 aiResp fsize ct aid pid duid iid).2.parsed,
      p.raw_text_s3_key = "parsed-resumes/" ++ pid ++ ".txt") ∧
    blobGet (process_resume_file f key raw0 aiResp fsize ct aid pid duid iid).2.blob
        ("parsed-resumes/" ++ pid ++ ".txt") =
      some (.text (shortTextGuard raw0 (lastPathComponent key))) ∧
    (process_resume_file f key raw0 aiResp fsize ct aid pid duid iid).2.infos.length = 1 ∧
    (∀ i ∈ (process_resume_file f key raw0 aiResp fsize ct aid pid duid iid).2.infos,
      i.raw_text_s3_key = "parsed-resumes/" ++ pid ++ ".txt" ∧
      i.detailed_analysis_s3_key = "analysis/" ++ duid ++ ".json") ∧
    blobGet (process_resume_file f key raw0 aiResp fsize ct aid pid duid iid).2.blob
        ("analysis/" ++ duid ++ ".json") =
      some (.json (mkDetailedAnalysis (pipelineAnalysis (lastPathComponent key)
        (shortTextGuard raw0 (lastPathComponent key)) aiResp))) := by
  obtain ⟨b1, b2, b3, b4, b5, b6⟩ := f
  simp only [Faults.allOk, Bool.and_eq_true] at hall
  obtain ⟨⟨⟨⟨⟨h1, h2⟩, h3⟩, h4⟩, h5⟩, h6⟩ := hall
  subst h1 h2 h3 h4 h5 h6
  refine ⟨?_, ?_, ?_, ?_, ?_, ?_⟩ <;>
    simp [process_resume_file, hext, blobGet, mkResumeInfo, keys_ne]

theorem C10_references_unconditional_witness :
    blobGet (process_resume_file ⟨true, true, true, true, true, true⟩
        "uploads/r.txt" "short note" none 7 "text/plain" "att-1" "par-1" "det-1" "inf-1").2.blob
        ("parsed-resumes/" ++ "par-1" ++ ".txt") =
      some (.text (shortTextGuard "short note" (lastPathComponent "uploads/r.txt"))) ∧
    (∀ i ∈ (process_resume_file ⟨true, true, true, true, true, true⟩
        "uploads/r.txt" "short note" none 7 "text/plain" "att-1" "par-1" "det-1" "inf-1").2.infos,
      i.raw_text_s3_key = "parsed-resumes/" ++ "par-1" ++ ".txt" ∧
      i.detailed_analysis_s3_key = "analysis/" ++ "det-1" ++ ".json") :=
  ⟨(C10_references_unconditional ⟨true, true, true, true, true, true⟩
      "uploads/r.txt" "short note" none 7 "text/plain" "att-1" "par-1" "det-1" "inf-1"
      (by decide) (by decide)).2.2.1,
   (C10_references_unconditional ⟨true, true, true, true, true, true⟩
      "uploads/r.txt" "short note" none 7 "text/plain" "att-1" "par-1" "det-1" "inf-1"
      (by decide) (by decide)).2.2.2.2.1⟩

end S3Processor
